import Mathlib

/-!
Verification development for the Streamsong booking dashboard.

The repository's core logic (tee-time resolution heuristics, the journey
e-mail scheduler and dispatcher, the tee-time backfill job, the booking
status update and the dashboard's status-transition buttons) is shallowly
embedded below.  Python dictionary/JSON values are modelled by `SVal`,
database rows by explicit structures, and the psycopg calls by pure
functions over an explicit database state.
-/

/-- A Python/JSON value as it can appear in a booking field
(`tee_time`, `selected_tee_times`, `note`).  `vNa` models the pandas
`NaN` missing marker (truthy as a Python object, but `pd.isna` is true);
`vDec s` models a non-integral JSON number literal `s`. -/
inductive SVal where
  | vNone : SVal
  | vBool : Bool → SVal
  | vInt : Int → SVal
  | vDec : String → SVal
  | vStr : String → SVal
  | vList : List SVal → SVal
  | vDict : List (String × SVal) → SVal
  | vNa : SVal

namespace SVal

/-- Python truthiness (`bool(x)`): `None`, `False`, `0`, `""`, empty
containers are falsy; `float('nan')` is truthy; a decimal literal is
falsy exactly when it denotes zero (all digits `0`). -/
def pyTruthy : SVal → Bool
  | vNone => false
  | vBool b => b
  | vInt n => n != 0
  | vDec s => s.data.any (fun c => c.isDigit && c != '0')
  | vStr s => !s.isEmpty
  | vList l => !l.isEmpty
  | vDict m => !m.isEmpty
  | vNa => true

/-- `pandas` null test (`checknull`) of one element of an object-dtype
array: `None` and `NaN` are null, everything else (nested containers
included) is not. -/
def pdIsNaElem : SVal → Bool
  | vNone => true
  | vNa => true
  | _ => false

/-- The truth value of `pd.isna(x)` as the note extractor's guard uses
it.  For scalars `pd.isna` returns a Python bool (`True` exactly for
`None` and `NaN`); for a mapping the pandas `_isna` fallback returns
`False`; for a list it returns an object-dtype ndarray, whose `if` truth
test yields the null-ness of the element when the array has exactly one
element and raises `ValueError` for any other size (modelled by `none`;
the empty list is falsy, so the guard short-circuits before ever
truth-testing its ndarray). -/
def pdIsNa : SVal → Option Bool
  | vNone => some true
  | vNa => some true
  | vList [x] => some (pdIsNaElem x)
  | vList _ => none
  | _ => some false

/-- Python `dict.get(key)`: the binding lists produced by the JSON parser
store later bindings first, so the first hit is the live one. -/
def dictGet (m : List (String × SVal)) (k : String) : Option SVal :=
  (m.find? (fun p => p.1 == k)).map Prod.snd

/-- Python `str(x)` for the values the note extractor can receive.
Container `repr` strings are approximated by placeholders, so the time a
container note's `repr` might happen to encode is not recovered; whether
the extractor raises or returns is modelled exactly
(`extract_tee_time_from_note_checked`). -/
def pyStr : SVal → String
  | vNone => "None"
  | vBool true => "True"
  | vBool false => "False"
  | vInt n => toString n
  | vDec s => s
  | vStr s => s
  | vNa => "nan"
  | vList _ => "\x7blist\x7d"
  | vDict _ => "\x7bdict\x7d"

end SVal

open SVal

/-! ### Model of the regular expressions used by the tee-time extractors

The three note patterns `Time:\s*(\d{1,2}:\d{2}\s*[AaPp][Mm])` (twice,
case-insensitively identical) and `Tee\s+Time:\s*(...)` are searched with
`re.IGNORECASE`; `extract_tee_time_from_selected_tee_times` additionally
uses the case-sensitive `time:(\d{1,2}:\d{2}\s*[AaPp][Mm])` and the
anchored `re.match(r'\d{1,2}:\d{2}\s*[AaPp][Mm]', ...)`.  `re.search` is
modelled as a left-to-right scan for the leftmost start position at which
the whole pattern matches; the only backtracking point of these patterns
is `\d{1,2}` (greedy), modelled explicitly in `parseClock`. -/

/-- ASCII whitespace matched by Python's `\s` (and stripped by `.strip()`). -/
def isPyWs (c : Char) : Bool :=
  c == ' ' || c == '\t' || c == '\n' || c == '\r' || c == '\x0b' || c == '\x0c'

/-- `[AaPp]` -/
def isAmPmFirst (c : Char) : Bool := c == 'A' || c == 'a' || c == 'P' || c == 'p'

/-- `[Mm]` -/
def isMLetter (c : Char) : Bool := c == 'M' || c == 'm'

/-- Match `\s*[AaPp][Mm]` at the head, returning the consumed characters
(these are part of the capture group). -/
def parseSpacesThenAmPm (cs : List Char) : Option (List Char) :=
  match cs.dropWhile isPyWs with
  | a :: m :: _ =>
    if isAmPmFirst a && isMLetter m then some (cs.takeWhile isPyWs ++ [a, m]) else none
  | _ => none

/-- Match `\d{2}\s*[AaPp][Mm]` (the minutes and meridiem) at the head. -/
def parseMinutes (cs : List Char) : Option (List Char) :=
  match cs with
  | m1 :: m2 :: rest =>
    if m1.isDigit && m2.isDigit then
      (parseSpacesThenAmPm rest).map (fun t => m1 :: m2 :: t)
    else none
  | _ => none

/-- Match `\d{1,2}:\d{2}\s*[AaPp][Mm]` at the head of `cs`, returning the
matched characters (the regex capture group).  `\d{1,2}` is greedy: two
digits are tried first, then one. -/
def parseClock (cs : List Char) : Option (List Char) :=
  let two : Option (List Char) :=
    match cs with
    | d1 :: d2 :: c :: rest =>
      if d1.isDigit && d2.isDigit && c == ':' then
        (parseMinutes rest).map (fun t => d1 :: d2 :: ':' :: t)
      else none
    | _ => none
  match two with
  | some t => some t
  | none =>
    match cs with
    | d1 :: c :: rest =>
      if d1.isDigit && c == ':' then
        (parseMinutes rest).map (fun t => d1 :: ':' :: t)
      else none
    | _ => none

/-- Match `[Tt][Ii][Mm][Ee]:\s*` followed by the clock pattern at the head
of `cs`; the returned capture is the clock part only. -/
def matchTimeLabelAt (cs : List Char) : Option (List Char) :=
  match cs with
  | t :: i :: m :: e :: c :: rest =>
    if t.toLower == 't' && i.toLower == 'i' && m.toLower == 'm' && e.toLower == 'e'
        && c == ':' then
      parseClock (rest.dropWhile isPyWs)
    else none
  | _ => none

/-- `re.search` for `Time:\s*(clock)` with `re.IGNORECASE`. -/
def searchTimeLabel : List Char → Option (List Char)
  | [] => none
  | c :: cs =>
    match matchTimeLabelAt (c :: cs) with
    | some g => some g
    | none => searchTimeLabel cs

/-- Match `[Tt][Ee][Ee]\s+[Tt][Ii][Mm][Ee]:\s*clock` at the head of `cs`.
After the mandatory whitespace the continuation starts with a
non-whitespace letter, so the greedy `\s+` needs no backtracking. -/
def matchTeeTimeLabelAt (cs : List Char) : Option (List Char) :=
  match cs with
  | t1 :: e1 :: e2 :: rest =>
    if t1.toLower == 't' && e1.toLower == 'e' && e2.toLower == 'e' then
      match rest with
      | w :: _ => if isPyWs w then matchTimeLabelAt (rest.dropWhile isPyWs) else none
      | [] => none
    else none
  | _ => none

/-- `re.search` for `Tee\s+Time:\s*(clock)` with `re.IGNORECASE`. -/
def searchTeeTimeLabel : List Char → Option (List Char)
  | [] => none
  | c :: cs =>
    match matchTeeTimeLabelAt (c :: cs) with
    | some g => some g
    | none => searchTeeTimeLabel cs

/-- Match the case-sensitive `time:(clock)` pattern (the legacy Go-map
strategy, searched without `re.IGNORECASE` and without `\s*` after the
colon) at the head of `cs`. -/
def matchGoMapAt (cs : List Char) : Option (List Char) :=
  match cs with
  | 't' :: 'i' :: 'm' :: 'e' :: ':' :: rest => parseClock rest
  | _ => none

/-- `re.search` for `time:(clock)`, case-sensitive. -/
def searchGoMap : List Char → Option (List Char)
  | [] => none
  | c :: cs =>
    match matchGoMapAt (c :: cs) with
    | some g => some g
    | none => searchGoMap cs

/-- Python `str.strip()` restricted to ASCII whitespace. -/
def pyStrip (cs : List Char) : List Char :=
  ((cs.dropWhile isPyWs).reverse.dropWhile isPyWs).reverse

/-- Python `str.upper()` (ASCII). -/
def pyUpper (cs : List Char) : List Char := cs.map Char.toUpper


/-! ### Model of `json.loads` (used by selected_tee_times strategy 1)

A recursive-descent JSON parser producing `SVal`.  Objects store later
duplicate keys first so that `dictGet` returns the last binding, matching
Python's dict construction.  Non-integral number literals are kept as
`vDec` literals (their only observable uses downstream are identity and
truthiness).  The Python extensions `NaN`/`Infinity` are not modelled. -/

/-- JSON insignificant whitespace. -/
def isJsonWs (c : Char) : Bool := c == ' ' || c == '\t' || c == '\n' || c == '\r'

/-- Drop JSON whitespace. -/
def skipJsonWs (cs : List Char) : List Char := cs.dropWhile isJsonWs

/-- One hex digit of a `\u` escape. -/
def parseHexDigit (c : Char) : Option Nat :=
  if c.isDigit then some (c.toNat - 48)
  else if 'a' ≤ c && c ≤ 'f' then some (c.toNat - 97 + 10)
  else if 'A' ≤ c && c ≤ 'F' then some (c.toNat - 65 + 10)
  else none

/-- Parse the body of a JSON string (the opening quote already consumed),
returning the decoded string and the remaining input. -/
def parseJsonStringAux (acc : List Char) : List Char → Option (String × List Char)
  | [] => none
  | c :: rest =>
    if c == '"' then some (String.mk acc.reverse, rest)
    else if c == '\\' then
      match rest with
      | [] => none
      | e :: rest2 =>
        if e == '"' then parseJsonStringAux ('"' :: acc) rest2
        else if e == '\\' then parseJsonStringAux ('\\' :: acc) rest2
        else if e == '/' then parseJsonStringAux ('/' :: acc) rest2
        else if e == 'b' then parseJsonStringAux ('\x08' :: acc) rest2
        else if e == 'f' then parseJsonStringAux ('\x0c' :: acc) rest2
        else if e == 'n' then parseJsonStringAux ('\n' :: acc) rest2
        else if e == 'r' then parseJsonStringAux ('\r' :: acc) rest2
        else if e == 't' then parseJsonStringAux ('\t' :: acc) rest2
        else if e == 'u' then
          match rest2 with
          | h1 :: h2 :: h3 :: h4 :: rest3 =>
            match parseHexDigit h1, parseHexDigit h2, parseHexDigit h3, parseHexDigit h4 with
            | some a, some b, some c4, some d =>
              parseJsonStringAux (Char.ofNat (((a * 16 + b) * 16 + c4) * 16 + d) :: acc) rest3
            | _, _, _, _ => none
          | _ => none
        else none
    else if c.toNat < 32 then none
    else parseJsonStringAux (c :: acc) rest
  termination_by cs => cs.length
  decreasing_by all_goals (simp_all [List.length_cons]; try omega)

/-- Split off a maximal run of decimal digits. -/
def spanDigits (cs : List Char) : List Char × List Char :=
  (cs.takeWhile Char.isDigit, cs.dropWhile Char.isDigit)

/-- Digits to a natural number. -/
def digitsToNat (ds : List Char) : Nat :=
  ds.foldl (fun n c => n * 10 + (c.toNat - 48)) 0

/-- Parse an optional JSON fraction part `.\d+`; `some ([], cs)` when no
fraction is present, `none` when a malformed fraction makes the whole
parse fail. -/
def parseJsonFrac (cs : List Char) : Option (List Char × List Char) :=
  match cs with
  | '.' :: rest =>
    match spanDigits rest with
    | ([], _) => none
    | (ds, rest2) => some ('.' :: ds, rest2)
  | _ => some ([], cs)

/-- Parse an optional JSON exponent part `[eE][+-]?\d+`; conventions as in
`parseJsonFrac`. -/
def parseJsonExp (cs : List Char) : Option (List Char × List Char) :=
  match cs with
  | e :: rest =>
    if e == 'e' || e == 'E' then
      let (sgn, rest2) :=
        match rest with
        | s :: r => if s == '+' || s == '-' then ([s], r) else (([] : List Char), rest)
        | [] => (([] : List Char), rest)
      match spanDigits rest2 with
      | ([], _) => none
      | (ds, rest3) => some (e :: (sgn ++ ds), rest3)
    else some ([], cs)
  | [] => some ([], [])

/-- Parse a JSON number: `-?(0|[1-9]\d*)(\.\d+)?([eE][+-]?\d+)?`.
Integral literals become `vInt`; literals with a fraction or exponent are
kept verbatim as `vDec`. -/
def parseJsonNumber (cs : List Char) : Option (SVal × List Char) :=
  let (neg, cs1) :=
    match cs with
    | '-' :: rest => (true, rest)
    | _ => (false, cs)
  match cs1 with
  | [] => none
  | d :: rest =>
    if !d.isDigit then none
    else
      let (intDigits, rest2) :=
        if d == '0' then ([d], rest)
        else (d :: rest.takeWhile Char.isDigit, rest.dropWhile Char.isDigit)
      match parseJsonFrac rest2 with
      | none => none
      | some (fracLit, rest3) =>
        match parseJsonExp rest3 with
        | none => none
        | some (expLit, rest4) =>
          if fracLit.isEmpty && expLit.isEmpty then
            let n : Int := Int.ofNat (digitsToNat intDigits)
            some (SVal.vInt (if neg then -n else n), rest4)
          else
            let lit := (if neg then ['-'] else []) ++ intDigits ++ fracLit ++ expLit
            some (SVal.vDec (String.mk lit), rest4)

mutual

/-- Parse one JSON value at the head of the input (no leading whitespace). -/
def parseJsonValue : Nat → List Char → Option (SVal × List Char)
  | 0, _ => none
  | fuel + 1, cs =>
    match cs with
    | 'n' :: 'u' :: 'l' :: 'l' :: rest => some (SVal.vNone, rest)
    | 't' :: 'r' :: 'u' :: 'e' :: rest => some (SVal.vBool true, rest)
    | 'f' :: 'a' :: 'l' :: 's' :: 'e' :: rest => some (SVal.vBool false, rest)
    | '"' :: rest => (parseJsonStringAux [] rest).map (fun p => (SVal.vStr p.1, p.2))
    | '{' :: rest => parseJsonObject fuel (skipJsonWs rest)
    | '[' :: rest => parseJsonArray fuel (skipJsonWs rest)
    | _ => parseJsonNumber cs

/-- Parse the inside of a JSON object (after `{` and whitespace). -/
def parseJsonObject : Nat → List Char → Option (SVal × List Char)
  | 0, _ => none
  | fuel + 1, cs =>
    match cs with
    | '}' :: rest => some (SVal.vDict [], rest)
    | _ => parseJsonMembers (fuel + 1) cs []

/-- Parse one or more `"key": value` members separated by commas, ending
at `}`.  Bindings are accumulated most-recent-first. -/
def parseJsonMembers : Nat → List Char → List (String × SVal) → Option (SVal × List Char)
  | 0, _, _ => none
  | fuel + 1, cs, acc =>
    match cs with
    | '"' :: rest =>
      match parseJsonStringAux [] rest with
      | none => none
      | some (key, rest2) =>
        match skipJsonWs rest2 with
        | ':' :: rest3 =>
          match parseJsonValue fuel (skipJsonWs rest3) with
          | none => none
          | some (v, rest4) =>
            match skipJsonWs rest4 with
            | ',' :: rest5 => parseJsonMembers fuel (skipJsonWs rest5) ((key, v) :: acc)
            | '}' :: rest5 => some (SVal.vDict ((key, v) :: acc), rest5)
            | _ => none
        | _ => none
    | _ => none

/-- Parse the inside of a JSON array (after `[` and whitespace). -/
def parseJsonArray : Nat → List Char → Option (SVal × List Char)
  | 0, _ => none
  | fuel + 1, cs =>
    match cs with
    | ']' :: rest => some (SVal.vList [], rest)
    | _ => parseJsonItems (fuel + 1) cs []

/-- Parse one or more array items separated by commas, ending at `]`. -/
def parseJsonItems : Nat → List Char → List SVal → Option (SVal × List Char)
  | 0, _, _ => none
  | fuel + 1, cs, acc =>
    match parseJsonValue fuel cs with
    | none => none
    | some (v, rest) =>
      match skipJsonWs rest with
      | ',' :: rest2 => parseJsonItems fuel (skipJsonWs rest2) (v :: acc)
      | ']' :: rest2 => some (SVal.vList (v :: acc).reverse, rest2)
      | _ => none

end

/-- `json.loads`: parse a complete JSON document, requiring the whole
input (up to whitespace) to be consumed; `none` models a raised
`JSONDecodeError`. -/
def jsonLoads (s : String) : Option SVal :=
  match parseJsonValue (s.length + 1) (skipJsonWs s.data) with
  | some (v, rest) => if (skipJsonWs rest).isEmpty then some v else none
  | none => none

/-! ### Tee-time extraction helpers
(`customer_journey_marketing_logic.py` lines 66–157; the identical note
extractor also lives in `modules/utils/helpers.py` lines 6–37 and
`fix_tee_times.py` lines 15–40). -/

/-- The pattern loop of `extract_tee_time_from_note`: the patterns
`Time: H:MM AM/PM`, `time: ...` and `Tee Time: ...` (all `re.IGNORECASE`,
so the second pattern is the first again) tried in order; the result is
the stripped, upper-cased capture of the first pattern that matches
anywhere. -/
def searchNotePatterns (s : List Char) : Option String :=
  match searchTimeLabel s with
  | some g => some (String.mk (pyUpper (pyStrip g)))
  | none =>
    match searchTimeLabel s with
    | some g => some (String.mk (pyUpper (pyStrip g)))
    | none =>
      match searchTeeTimeLabel s with
      | some g => some (String.mk (pyUpper (pyStrip g)))
      | none => none

/-- `extract_tee_time_from_note` with its exception behaviour: the guard
`if not note_content or pd.isna(note_content): return None` short-circuits
on a falsy note, returns early on a null one, and raises `ValueError`
when `pd.isna` yields a multi-element ndarray whose truth test is
ambiguous; otherwise the pattern loop runs over `str(note_content)`. -/
def extract_tee_time_from_note_checked (note : SVal) : Except String (Option String) :=
  if !pyTruthy note then Except.ok none
  else
    match pdIsNa note with
    | none => Except.error
        "ValueError: The truth value of an array with more than one element is ambiguous"
    | some true => Except.ok none
    | some false => Except.ok (searchNotePatterns (pyStr note).data)

/-- `extract_tee_time_from_note` on its non-raising domain: the value the
Python function returns whenever it does not raise (a raising input is
mapped to `none` here; `extract_tee_time_from_note_checked` is the
faithful model of the exception). -/
def extract_tee_time_from_note (note : SVal) : Option String :=
  match extract_tee_time_from_note_checked note with
  | Except.ok r => r
  | Except.error _ => none

/-- The notes on which the extractor's guard raises: a (necessarily
truthy) list with two or more elements, whose `pd.isna` ndarray has an
ambiguous truth value. -/
def noteMayRaise : SVal → Bool
  | SVal.vList (_ :: _ :: _) => true
  | _ => false

/-- `extract_tee_time_from_selected_tee_times`: falsy input yields `None`;
a dict yields `dict.get('time')`; a string is tried as JSON (object with a
`time` key), then as the legacy Go-map pattern, then as a bare
`H:MM AM/PM` prefix (in which case the *whole* string is returned).
Any other type yields `None`. -/
def extract_tee_time_from_selected_tee_times (selected : SVal) : SVal :=
  if !pyTruthy selected then vNone
  else
    match selected with
    | vDict m => (dictGet m "time").getD vNone
    | vStr s =>
      let strat1 : Option SVal :=
        match jsonLoads s with
        | some (vDict m) =>
          match dictGet m "time" with
          | some v => some v
          | none => none
        | _ => none
      match strat1 with
      | some x => x
      | none =>
        match searchGoMap s.data with
        | some g => vStr (String.mk (pyStrip g))
        | none => if (parseClock s.data).isSome then vStr s else vNone
    | _ => vNone

/-- The booking fields read by `get_tee_time_from_booking`. -/
structure RBooking where
  tee_time : SVal
  selected_tee_times : SVal
  note : SVal

/-- `get_tee_time_from_booking`: the multi-source tee-time resolver.
Priority: truthy `tee_time` column verbatim; then a truthy extraction
from `selected_tee_times`; then a truthy extraction from `note`;
else the sentinel `'TBD'`. -/
def get_tee_time_from_booking (b : RBooking) : SVal :=
  if pyTruthy b.tee_time then b.tee_time
  else if pyTruthy b.selected_tee_times
      && pyTruthy (extract_tee_time_from_selected_tee_times b.selected_tee_times) then
    extract_tee_time_from_selected_tee_times b.selected_tee_times
  else if pyTruthy b.note then
    match extract_tee_time_from_note b.note with
    | some t => if !t.isEmpty then vStr t else vStr "TBD"
    | none => vStr "TBD"
  else vStr "TBD"

/-- `get_tee_time_from_booking` with its exception behaviour: the first
two strategies cannot raise (`extract_tee_time_from_selected_tee_times`
only probes with `isinstance`, `json.loads` inside a `try`, and
`re` calls on a string), so the only escaping exception is the note
guard's `ValueError`, propagated from
`extract_tee_time_from_note_checked`. -/
def get_tee_time_from_booking_checked (b : RBooking) : Except String SVal :=
  if pyTruthy b.tee_time then Except.ok b.tee_time
  else if pyTruthy b.selected_tee_times
      && pyTruthy (extract_tee_time_from_selected_tee_times b.selected_tee_times) then
    Except.ok (extract_tee_time_from_selected_tee_times b.selected_tee_times)
  else if pyTruthy b.note then
    match extract_tee_time_from_note_checked b.note with
    | Except.error e => Except.error e
    | Except.ok (some t) =>
      if !t.isEmpty then Except.ok (vStr t) else Except.ok (vStr "TBD")
    | Except.ok none => Except.ok (vStr "TBD")
  else Except.ok (vStr "TBD")

/-! ### Booking rows and database state

One row type serves all the embedded queries; fields not read by any
claim under verification (totals, hotel and lodging columns,
`golf_courses`, timestamps other than `updated_at`) are omitted.  The
optional journey-tracking columns are modelled by the two `has*Tracking`
schema flags: when a flag is false the corresponding per-row timestamp is
not a real column (the queries then select `NULL` in its place). -/

structure BookingRow where
  id : Nat
  booking_id : String
  guest_email : Option String
  guest_name : Option String
  play_date : Option Int
  tee_time : Option String
  selected_tee_times : SVal
  note : Option String
  players : Int
  status : String
  club : String
  updated_by : Option String
  updated_at : Option Nat
  pre_arrival_email_sent_at : Option Nat
  post_play_email_sent_at : Option Nat

/-- The bookings table plus the schema facts the code probes via
`information_schema.columns`. -/
structure Database where
  hasPreTracking : Bool
  hasPostTracking : Bool
  rows : List BookingRow

/-! ### Journey selections, dashboard module
(`modules/customer_journey/emails.py` lines 34–225).  `ORDER BY` clauses
are not modelled: every claim about these selections is about membership,
which ordering does not affect. -/

/-- `get_upcoming_bookings(days_ahead, show_all)` from
`modules/customer_journey/emails.py`: club is hard-coded to
`'streamsong'`, only `Confirmed` rows qualify; default mode matches
`date = today + days_ahead` exactly, `show_all` accepts any
`date >= CURRENT_DATE`.  When the tracking column is missing the query
selects `NULL as pre_arrival_email_sent_at`.  Note: this selection does
NOT exclude already-sent bookings. -/
def emails_get_upcoming_bookings (db : Database) (today : Int) (days_ahead : Int)
    (show_all : Bool) : List BookingRow :=
  let sel := db.rows.filter (fun r =>
    r.club == "streamsong" && r.status == "Confirmed" &&
      (match r.play_date with
       | some d => if show_all then decide (today ≤ d) else d == today + days_ahead
       | none => false))
  sel.map (fun r =>
    if db.hasPreTracking then r else { r with pre_arrival_email_sent_at := none })

/-- `get_recent_bookings(days_ago, show_all)` from
`modules/customer_journey/emails.py`: default mode matches
`date = today - days_ago` exactly, `show_all` accepts
`date >= CURRENT_DATE - INTERVAL '30 days'`. -/
def emails_get_recent_bookings (db : Database) (today : Int) (days_ago : Int)
    (show_all : Bool) : List BookingRow :=
  let sel := db.rows.filter (fun r =>
    r.club == "streamsong" && r.status == "Confirmed" &&
      (match r.play_date with
       | some d => if show_all then decide (today - 30 ≤ d) else d == today - days_ago
       | none => false))
  sel.map (fun r =>
    if db.hasPostTracking then r else { r with post_play_email_sent_at := none })

/-! ### Journey selections, standalone logic module
(`customer_journey_marketing_logic.py` lines 169–349). -/

/-- `get_upcoming_bookings(days_ahead, club_filter)` from
`customer_journey_marketing_logic.py`: selects `Confirmed` rows with
`date = today + days_ahead` (optionally club-filtered), then — when the
tracking column exists — filters out rows whose
`pre_arrival_email_sent_at` is set. -/
def logic_get_upcoming_bookings (db : Database) (today : Int) (days_ahead : Int)
    (club_filter : Option String) : List BookingRow :=
  let target := today + days_ahead
  let sel := db.rows.filter (fun r =>
    r.status == "Confirmed" &&
      (match r.play_date with
       | some d => d == target
       | none => false) &&
      (match club_filter with
       | some c => r.club == c
       | none => true))
  let sel := sel.map (fun r =>
    if db.hasPreTracking then r else { r with pre_arrival_email_sent_at := none })
  if db.hasPreTracking then
    sel.filter (fun r => r.pre_arrival_email_sent_at == none)
  else sel

/-- `get_recent_bookings(days_ago, club_filter)` from
`customer_journey_marketing_logic.py`. -/
def logic_get_recent_bookings (db : Database) (today : Int) (days_ago : Int)
    (club_filter : Option String) : List BookingRow :=
  let target := today - days_ago
  let sel := db.rows.filter (fun r =>
    r.status == "Confirmed" &&
      (match r.play_date with
       | some d => d == target
       | none => false) &&
      (match club_filter with
       | some c => r.club == c
       | none => true))
  let sel := sel.map (fun r =>
    if db.hasPostTracking then r else { r with post_play_email_sent_at := none })
  if db.hasPostTracking then
    sel.filter (fun r => r.post_play_email_sent_at == none)
  else sel

/-- `mark_email_sent(booking_id, email_type)` from
`customer_journey_marketing_logic.py`: an unknown event type raises
`ValueError` (modelled as `none`); the timestamp is written only when the
tracking column exists. -/
def logic_mark_email_sent (db : Database) (now : Nat) (bid : String)
    (email_type : String) : Option Database :=
  if email_type == "pre_arrival" then
    some (if db.hasPreTracking then
      { db with rows := db.rows.map (fun r =>
          if r.booking_id == bid then { r with pre_arrival_email_sent_at := some now } else r) }
    else db)
  else if email_type == "post_play" then
    some (if db.hasPostTracking then
      { db with rows := db.rows.map (fun r =>
          if r.booking_id == bid then { r with post_play_email_sent_at := some now } else r) }
    else db)
  else none

/-! ### E-mail dispatch
(`customer_journey_marketing_logic.py` lines 356–540). -/

/-- The environment-derived configuration of the sender plus an abstract
provider: `provider_status bid` is the HTTP status SendGrid returns for
the send of booking `bid`. -/
structure EmailEnv where
  sendgrid_api_key : Bool
  from_email : Bool
  template_pre_arrival : Bool
  template_post_play : Bool
  provider_status : String → Nat

/-- `send_pre_arrival_email(booking)`: configuration check, per-item
required-field validation, provider call, and on a 200/202 response the
idempotency mark.  Returns the `(success, message)` pair of the source
together with the updated database.  The pure template-payload
construction (guest name, formatted date, resolved tee time, totals) has
no observable effect outside the e-mail body and is not modelled. -/
def send_pre_arrival_email (env : EmailEnv) (db : Database) (now : Nat)
    (b : BookingRow) : (Bool × String) × Database :=
  if !(env.sendgrid_api_key && env.from_email && env.template_pre_arrival) then
    ((false, "SendGrid not configured"), db)
  else if b.booking_id == "" then ((false, "Missing booking_id"), db)
  else if b.guest_email.getD "" == "" then ((false, "Missing guest_email"), db)
  else if b.play_date == none then ((false, "Missing play_date"), db)
  else
    let code := env.provider_status b.booking_id
    if code == 200 || code == 202 then
      match logic_mark_email_sent db now b.booking_id "pre_arrival" with
      | some db2 => ((true, "Pre-arrival email sent to " ++ b.guest_email.getD ""), db2)
      | none => ((false, "Error"), db)
    else ((false, "SendGrid error: " ++ toString code), db)

/-- One entry of the `results` list built by `process_pre_arrival_emails`. -/
structure SendResult where
  booking_id : String
  email : Option String
  status : String
  message : Option String
  deriving DecidableEq

/-- The `for booking in bookings:` loop of `process_pre_arrival_emails`,
threading the database through the sends and accumulating
`(sent_count, failed_count, results)`. -/
def process_email_loop (env : EmailEnv) (now : Nat) (dry_run : Bool) :
    List BookingRow → Database → Nat × Nat × List SendResult × Database
  | [], db => (0, 0, [], db)
  | b :: rest, db =>
    if dry_run then
      let acc := process_email_loop env now dry_run rest db
      (acc.1, acc.2.1, ⟨b.booking_id, b.guest_email, "would_send", none⟩ :: acc.2.2.1,
        acc.2.2.2)
    else
      let sent := send_pre_arrival_email env db now b
      let acc := process_email_loop env now dry_run rest sent.2
      ((if sent.1.1 then 1 else 0) + acc.1, (if sent.1.1 then 0 else 1) + acc.2.1,
        ⟨b.booking_id, b.guest_email, if sent.1.1 then "sent" else "failed",
          some sent.1.2⟩ :: acc.2.2.1,
        acc.2.2.2)

/-- `process_pre_arrival_emails(club_filter, dry_run)`: selects the due
bookings (default offset `PRE_ARRIVAL_DAYS = 3`) and dispatches each in
turn, never aborting the loop on a failed item. -/
def process_pre_arrival_emails (env : EmailEnv) (db : Database) (now : Nat)
    (today : Int) (club_filter : Option String) (dry_run : Bool) :
    Nat × Nat × List SendResult × Database :=
  process_email_loop env now dry_run (logic_get_upcoming_bookings db today 3 club_filter) db

/-! ### Tee-time backfill
(`modules/database/bookings.py` lines 243–299 ; the standalone
`fix_tee_times.py` `update_tee_times` runs the same algorithm without the
club filter and without counting results into a return value). -/

/-- `tee_time IS NULL OR tee_time = 'Not Specified' OR tee_time = ''` -/
def teeTimeMissing : Option String → Bool
  | none => true
  | some s => s == "" || s == "Not Specified"

/-- A nullable text column as the extractor's Python argument. -/
def noteVal : Option String → SVal
  | none => SVal.vNone
  | some s => SVal.vStr s

/-- `fix_all_tee_times(club_filter)`: for every row of the club whose
`tee_time` is `NULL`/`''`/`'Not Specified'`, extract a time from `note`
and, on success, `UPDATE ... SET tee_time, updated_at = NOW() WHERE id`.
Returns `(rows after commit, updated_count, not_found_count)`.  The SQL
`UPDATE` keyed by the primary key of each selected row is modelled as the
in-place row rewrite. -/
def fix_all_tee_times (now : Nat) (club_filter : String) :
    List BookingRow → List BookingRow × Nat × Nat
  | [] => ([], 0, 0)
  | r :: rest =>
    let acc := fix_all_tee_times now club_filter rest
    if r.club == club_filter && teeTimeMissing r.tee_time then
      match extract_tee_time_from_note (noteVal r.note) with
      | some x =>
        ({ r with tee_time := some x, updated_at := some now } :: acc.1,
          acc.2.1 + 1, acc.2.2)
      | none => (r :: acc.1, acc.2.1, acc.2.2 + 1)
    else (r :: acc.1, acc.2.1, acc.2.2)

/-! ### Status update
(`modules/database/bookings.py` lines 118–152). -/

/-- `update_booking_status(booking_id, new_status, updated_by)`:
unconditionally `UPDATE ... WHERE booking_id = %s` (no row-count check),
then add the new status to the session-level auto-include set and return
`True`; `False` only when the database operation raises (`raises`
models the `except` path, in which case nothing is changed). -/
def update_booking_status (raises : Bool) (db : List BookingRow)
    (session_statuses : List String) (now : Nat) (booking_id : String)
    (new_status : String) (updated_by : String) :
    Bool × List BookingRow × List String :=
  if raises then (false, db, session_statuses)
  else
    let db2 := db.map (fun r =>
      if r.booking_id == booking_id then
        { r with status := new_status, updated_at := some now,
                 updated_by := some updated_by }
      else r)
    let session2 :=
      if session_statuses.contains new_status then session_statuses
      else session_statuses ++ [new_status]
    (true, db2, session2)

/-! ### Dashboard status-transition buttons
(`dashboard.py` lines 726–793).  The booking-card loop renders, for a
card whose current status is `s`, exactly one navigation button per
allowed target; each button's click handler is the only call site of
`update_booking_status` in the dashboard.  `dashboardNavTargets s` is the
list of statuses those buttons can write. -/

/-- The six workflow statuses plus the `Pending` alias of `Inquiry`
(`'Pending'` occurs as a stored value and is treated like `Inquiry` by
the buttons). -/
inductive BStatus where
  | inquiry | pending | requested | confirmed | booked | rejected | cancelled
  deriving DecidableEq

/-- The targets of the status-navigation buttons rendered for a booking
card with current status `s`, in column order (back-navigation, to
Requested, to Confirmed, to Booked, Reject/Cancel, Restore). -/
def dashboardNavTargets (s : BStatus) : List BStatus :=
  (match s with
   | .requested => [.inquiry]
   | .confirmed => [.requested]
   | .booked => [.confirmed]
   | _ => []) ++
  (if s = .inquiry ∨ s = .pending then [.requested] else []) ++
  (if s = .requested then [.confirmed] else []) ++
  (if s = .confirmed then [.booked] else []) ++
  (if ¬(s = .rejected ∨ s = .cancelled ∨ s = .booked) then [.rejected]
   else if s = .booked then [.cancelled] else []) ++
  (if s = .rejected ∨ s = .cancelled then [.inquiry] else [])

/-- The §4.1 transition table as stated by the specification:
`Inquiry`/`Pending` → `Requested`, `Rejected`; `Requested` →
`Confirmed`, `Inquiry`, `Rejected`; `Confirmed` → `Booked`, `Requested`,
`Rejected`; `Booked` → `Cancelled`, `Confirmed`; `Rejected` → `Inquiry`;
`Cancelled` → `Inquiry`. -/
def specTransitionAllowed : BStatus → BStatus → Bool
  | .inquiry, .requested | .inquiry, .rejected => true
  | .pending, .requested | .pending, .rejected => true
  | .requested, .confirmed | .requested, .inquiry | .requested, .rejected => true
  | .confirmed, .booked | .confirmed, .requested | .confirmed, .rejected => true
  | .booked, .cancelled | .booked, .confirmed => true
  | .rejected, .inquiry => true
  | .cancelled, .inquiry => true
  | _, _ => false

/-! ### Concrete fixtures used by the theorems below -/

/-- The dashboard's bulk-send prefilter
`unsent = [b for b in bookings if not b['pre_arrival_email_sent_at']]`
(`modules/customer_journey/emails.py` line 586). -/
def emails_bulk_unsent (bookings : List BookingRow) : List BookingRow :=
  bookings.filter (fun r => r.pre_arrival_email_sent_at == none)

/-- A `Confirmed` streamsong booking due in 3 days whose pre-arrival
e-mail has already been sent (timestamp 5). -/
def sentRow : BookingRow :=
  { id := 1, booking_id := "B100", guest_email := some "g@x.com", guest_name := none,
    play_date := some 3, tee_time := some "9:00 AM", selected_tee_times := SVal.vNone,
    note := none, players := 2, status := "Confirmed", club := "streamsong",
    updated_by := none, updated_at := none,
    pre_arrival_email_sent_at := some 5, post_play_email_sent_at := none }

/-- A `Confirmed` streamsong booking four days out, not yet notified. -/
def fourDayRow : BookingRow :=
  { id := 2, booking_id := "B200", guest_email := some "h@x.com", guest_name := none,
    play_date := some 4, tee_time := none, selected_tee_times := SVal.vNone,
    note := none, players := 4, status := "Confirmed", club := "streamsong",
    updated_by := none, updated_at := none,
    pre_arrival_email_sent_at := none, post_play_email_sent_at := none }

/-- Fully-configured sender environment whose provider accepts every
send with HTTP 200. -/
def c7env : EmailEnv := ⟨true, true, true, true, fun _ => 200⟩

/-- Batch booking 1: complete. -/
def c7row1 : BookingRow :=
  { id := 1, booking_id := "B1", guest_email := some "a@x.com", guest_name := none,
    play_date := some 3, tee_time := none, selected_tee_times := SVal.vNone,
    note := none, players := 2, status := "Confirmed", club := "streamsong",
    updated_by := none, updated_at := none,
    pre_arrival_email_sent_at := none, post_play_email_sent_at := none }

/-- Batch booking 2: missing `guest_email`. -/
def c7row2 : BookingRow :=
  { c7row1 with id := 2, booking_id := "B2", guest_email := none }

/-- Batch booking 3: complete. -/
def c7row3 : BookingRow :=
  { c7row1 with id := 3, booking_id := "B3", guest_email := some "c@x.com" }

/-- A streamsong row with a missing tee time recoverable from its note,
next to one with a concrete tee time. -/
def c8row : BookingRow :=
  { id := 9, booking_id := "B9", guest_email := none, guest_name := none,
    play_date := none, tee_time := some "9:00 AM", selected_tee_times := SVal.vNone,
    note := some "Time: 8:15 am", players := 1, status := "Confirmed",
    club := "streamsong", updated_by := none, updated_at := none,
    pre_arrival_email_sent_at := none, post_play_email_sent_at := none }

/-! ### Supporting lemmas -/

theorem digit_not_pyWs (c : Char) (h : c.isDigit = true) : isPyWs c = false := by
  have hlow : 48 ≤ c.val.toNat := by
    simp [Char.isDigit] at h
    exact_mod_cast h.1
  have ne : ∀ a : Char, a.val.toNat < 48 → (c == a) = false := by
    intro a ha
    rw [beq_eq_false_iff_ne]
    intro hEq
    subst hEq
    omega
  simp [isPyWs, ne ' ' (by decide), ne '\t' (by decide), ne '\n' (by decide),
    ne '\r' (by decide), ne '\x0b' (by decide), ne '\x0c' (by decide)]

theorem dropWhile_append_last (p : Char → Bool) (l : List Char) (d : Char)
    (hd : p d = false) :
    List.dropWhile p (l ++ [d]) = List.dropWhile p l ++ [d] := by
  induction l with
  | nil => simp [List.dropWhile, hd]
  | cons a l ih =>
    simp only [List.cons_append, List.dropWhile_cons]
    split <;> simp [ih]

theorem pyStrip_cons_digit (d : Char) (t : List Char) (h : d.isDigit = true) :
    ∃ t2, pyStrip (d :: t) = d :: t2 := by
  have hws := digit_not_pyWs d h
  unfold pyStrip
  rw [List.dropWhile_cons, if_neg (by simp [hws])]
  rw [List.reverse_cons, dropWhile_append_last _ _ _ hws]
  exact ⟨(List.dropWhile isPyWs t.reverse).reverse, by simp⟩

theorem parseClock_head (cs g : List Char) (h : parseClock cs = some g) :
    ∃ d t, g = d :: t ∧ d.isDigit = true := by
  match cs with
  | [] => simp [parseClock] at h
  | [a] => simp [parseClock] at h
  | [a, b] => simp [parseClock, parseMinutes] at h
  | a :: b :: c :: rest =>
    simp only [parseClock] at h
    split at h
    · next t heq =>
      injection h with h
      subst h
      split at heq
      · next hcond =>
        simp only [Option.map_eq_some'] at heq
        obtain ⟨x, _, hg⟩ := heq
        exact ⟨a, _, hg.symm, by simp_all⟩
      · exact absurd heq (by simp)
    · split at h
      · next hcond =>
        simp only [Option.map_eq_some'] at h
        obtain ⟨x, _, hg⟩ := h
        exact ⟨a, _, hg.symm, by simp_all⟩
      · exact absurd h (by simp)

theorem matchTimeLabelAt_clock (cs g : List Char) (h : matchTimeLabelAt cs = some g) :
    ∃ cs2, parseClock cs2 = some g := by
  match cs with
  | [] => simp [matchTimeLabelAt] at h
  | [a] => simp [matchTimeLabelAt] at h
  | [a, b] => simp [matchTimeLabelAt] at h
  | [a, b, c] => simp [matchTimeLabelAt] at h
  | [a, b, c, d] => simp [matchTimeLabelAt] at h
  | a :: b :: c :: d :: e :: rest =>
    simp only [matchTimeLabelAt] at h
    split at h
    · exact ⟨_, h⟩
    · exact absurd h (by simp)

theorem searchTimeLabel_clock (cs g : List Char) (h : searchTimeLabel cs = some g) :
    ∃ cs2, parseClock cs2 = some g := by
  induction cs with
  | nil => simp [searchTimeLabel] at h
  | cons c cs ih =>
    rw [searchTimeLabel] at h
    split at h
    · next g2 heq =>
      injection h with h
      subst h
      exact matchTimeLabelAt_clock _ _ heq
    · exact ih h

theorem matchTeeTimeLabelAt_clock (cs g : List Char) (h : matchTeeTimeLabelAt cs = some g) :
    ∃ cs2, parseClock cs2 = some g := by
  match cs with
  | [] => simp [matchTeeTimeLabelAt] at h
  | [a] => simp [matchTeeTimeLabelAt] at h
  | [a, b] => simp [matchTeeTimeLabelAt] at h
  | a :: b :: c :: rest =>
    simp only [matchTeeTimeLabelAt] at h
    split at h
    · split at h
      · next w rest2 =>
        split at h
        · exact matchTimeLabelAt_clock _ _ h
        · exact absurd h (by simp)
      · exact absurd h (by simp)
    · exact absurd h (by simp)

theorem searchTeeTimeLabel_clock (cs g : List Char) (h : searchTeeTimeLabel cs = some g) :
    ∃ cs2, parseClock cs2 = some g := by
  induction cs with
  | nil => simp [searchTeeTimeLabel] at h
  | cons c cs ih =>
    rw [searchTeeTimeLabel] at h
    split at h
    · next g2 heq =>
      injection h with h
      subst h
      exact matchTeeTimeLabelAt_clock _ _ heq
    · exact ih h

theorem digit_toUpper (c : Char) (h : c.isDigit = true) : c.toUpper = c := by
  simp [Char.isDigit] at h
  obtain ⟨h1, h2⟩ := h
  have h2n : c.val.toNat ≤ 57 := by exact_mod_cast h2
  simp only [Char.toUpper, Char.toNat]
  rw [if_neg]
  omega

theorem searchNotePatterns_head (s : List Char) (x : String)
    (h : searchNotePatterns s = some x) :
    ∃ d t2, x = String.mk (d :: t2) ∧ d.isDigit = true := by
  unfold searchNotePatterns at h
  have fromG : ∀ g : List Char, (∃ cs2, parseClock cs2 = some g) →
      some (String.mk (pyUpper (pyStrip g))) = some x →
      ∃ d t2, x = String.mk (d :: t2) ∧ d.isDigit = true := by
    intro g ⟨cs2, hpc⟩ hx
    obtain ⟨d, t, rfl, hd⟩ := parseClock_head _ _ hpc
    obtain ⟨t2, hstrip⟩ := pyStrip_cons_digit d t hd
    injection hx with hx
    refine ⟨d, (pyUpper t2), ?_, hd⟩
    rw [← hx, hstrip]
    simp [pyUpper, digit_toUpper d hd]
  split at h
  · next g heq => exact fromG g (searchTimeLabel_clock _ _ heq) h
  · split at h
    · next g heq => exact Option.noConfusion heq
    · split at h
      · next g heq => exact fromG g (searchTeeTimeLabel_clock _ _ heq) h
      · exact absurd h (by simp)

theorem extract_note_head (v : SVal) (x : String)
    (h : extract_tee_time_from_note v = some x) :
    ∃ d t2, x = String.mk (d :: t2) ∧ d.isDigit = true := by
  unfold extract_tee_time_from_note extract_tee_time_from_note_checked at h
  cases ht : pyTruthy v with
  | false => simp [ht] at h
  | true =>
    cases hg : pdIsNa v with
    | none => simp [ht, hg] at h
    | some b =>
      cases b with
      | true => simp [ht, hg] at h
      | false =>
        simp only [ht, hg, Bool.not_true, Bool.false_eq_true, if_false] at h
        exact searchNotePatterns_head _ _ h

theorem extract_note_not_missing (v : SVal) (x : String)
    (h : extract_tee_time_from_note v = some x) :
    teeTimeMissing (some x) = false := by
  obtain ⟨d, t2, rfl, hd⟩ := extract_note_head v x h
  have h1 : (String.mk (d :: t2) == "") = false := by
    rw [beq_eq_false_iff_ne]
    intro hEq
    have hdata : d :: t2 = ([] : List Char) := congrArg String.data hEq
    exact List.noConfusion hdata
  have h2 : (String.mk (d :: t2) == "Not Specified") = false := by
    rw [beq_eq_false_iff_ne]
    intro hEq
    have hdata : d :: t2 = 'N' :: "ot Specified".data := congrArg String.data hEq
    injection hdata with hN _
    subst hN
    exact absurd hd (by decide)
  simp [teeTimeMissing, h1, h2]

theorem fix_all_tee_times_length (now : Nat) (club : String) :
    ∀ db, ((fix_all_tee_times now club db).1).length = db.length := by
  intro db
  induction db with
  | nil => rfl
  | cons r rest ih =>
    simp only [fix_all_tee_times]
    split
    · split <;> simp [ih]
    · simp [ih]

theorem fix_second_run_zero (now now2 : Nat) (club : String) :
    ∀ db, (fix_all_tee_times now2 club (fix_all_tee_times now club db).1).2.1 = 0 := by
  intro db
  induction db with
  | nil => rfl
  | cons r rest ih =>
    simp only [fix_all_tee_times]
    by_cases hc : (r.club == club && teeTimeMissing r.tee_time) = true
    · rw [if_pos hc]
      cases hx : extract_tee_time_from_note (noteVal r.note) with
      | some x =>
        have hmiss : teeTimeMissing (some x) = false := extract_note_not_missing _ _ hx
        simp only [fix_all_tee_times]
        rw [if_neg (by simp [hmiss])]
        simpa using ih
      | none =>
        simp only [fix_all_tee_times, hx, if_pos hc]
        simpa using ih
    · rw [if_neg hc]
      simp only [fix_all_tee_times]
      rw [if_neg hc]
      simpa using ih

theorem fix_map (now : Nat) (club : String) :
    ∀ db, (fix_all_tee_times now club db).1 = db.map (fun r =>
      if r.club == club && teeTimeMissing r.tee_time then
        match extract_tee_time_from_note (noteVal r.note) with
        | some x => { r with tee_time := some x, updated_at := some now }
        | none => r
      else r) := by
  intro db
  induction db with
  | nil => rfl
  | cons r rest ih =>
    simp only [fix_all_tee_times, List.map_cons]
    split
    · split <;> simp_all
    · simp_all

theorem process_email_loop_length (env : EmailEnv) (now : Nat) (dry : Bool) :
    ∀ l db, ((process_email_loop env now dry l db).2.2.1).length = l.length := by
  intro l
  induction l with
  | nil => intro db; rfl
  | cons b rest ih =>
    intro db
    simp only [process_email_loop]
    split <;> simp [ih]

/-- C1: for every current status (with `Pending` behaving as `Inquiry`) and
every target status, the dashboard's status-navigation buttons can write a
transition if and only if the pair is in the section-4.1 table; since the
buttons are the dashboard's only call sites of `update_booking_status`, a
transition outside the table is never written to the booking store. -/
theorem status_buttons_match_spec_table :
    ∀ s t : BStatus, (t ∈ dashboardNavTargets s) ↔ specTransitionAllowed s t = true := by
  intro s t
  cases s <;> cases t <;> decide

/-- C3 counterexample: a `tee_time` column holding a sentinel value is
truthy, so the resolver returns the sentinel verbatim instead of falling
through to the structured `selected_tee_times` source (which here holds
`10:35 AM`); the same happens for the `TBD` sentinel. -/
theorem resolver_returns_sentinel_verbatim :
    get_tee_time_from_booking
        ⟨vStr "Not Specified", vDict [("time", vStr "10:35 AM")], vNone⟩ =
      vStr "Not Specified" ∧
    get_tee_time_from_booking
        ⟨vStr "TBD", vDict [("time", vStr "10:35 AM")], vNone⟩ = vStr "TBD" :=
  ⟨rfl, rfl⟩

/-- C3 amended: the resolver returns the `tee_time` column verbatim
exactly when that column is truthy (non-empty, non-null) — including when
it holds a sentinel value such as `Not Specified` or `TBD`; it falls
through to the other strategies only for an empty or null column. -/
theorem resolver_tee_time_verbatim_iff_truthy (b : RBooking) :
    (pyTruthy b.tee_time = true → get_tee_time_from_booking b = b.tee_time) ∧
    (pyTruthy b.tee_time = false → pyTruthy b.selected_tee_times = false →
      pyTruthy b.note = false → get_tee_time_from_booking b = vStr "TBD") := by
  constructor
  · intro h
    simp [get_tee_time_from_booking, h]
  · intro h1 h2 h3
    simp [get_tee_time_from_booking, h1, h2, h3]

/-- C3 witness: instantiation of the amended claim at a sentinel column
value and at an all-empty booking. -/
theorem resolver_tee_time_verbatim_iff_truthy_witness :
    get_tee_time_from_booking ⟨vStr "Not Specified", vNone, vNone⟩ =
      vStr "Not Specified" ∧
    get_tee_time_from_booking ⟨vStr "", vNone, vNone⟩ = vStr "TBD" :=
  ⟨(resolver_tee_time_verbatim_iff_truthy ⟨vStr "Not Specified", vNone, vNone⟩).1 rfl,
    (resolver_tee_time_verbatim_iff_truthy ⟨vStr "", vNone, vNone⟩).2 rfl rfl rfl⟩

/-- C4 counterexample: with an empty `tee_time` and `selected_tee_times`
holding a structured *list* whose first entry carries a `time` field, the
resolver returns the sentinel `TBD`, not that entry's time: the extractor
only handles dict objects, and a list yields nothing. -/
theorem resolver_list_not_extracted :
    get_tee_time_from_booking
        ⟨vStr "", vList [vDict [("time", vStr "10:35 AM")]], vNone⟩ = vStr "TBD" ∧
    extract_tee_time_from_selected_tee_times
        (vList [vDict [("time", vStr "10:35 AM")]]) = vNone :=
  ⟨rfl, rfl⟩

/-- C4 amended: with an empty `tee_time`, the resolver returns the `time`
field of `selected_tee_times` when that field is a structured *dict*
carrying a truthy `time` entry; a structured list is not handled by this
strategy and yields nothing. -/
theorem resolver_dict_time_field (b : RBooking) (m : List (String × SVal))
    (v : SVal) (l : List SVal)
    (h1 : pyTruthy b.tee_time = false) (h2 : b.selected_tee_times = vDict m)
    (h3 : dictGet m "time" = some v) (h4 : pyTruthy v = true) :
    get_tee_time_from_booking b = v ∧
    extract_tee_time_from_selected_tee_times (vList l) = vNone := by
  have hm : m ≠ [] := by
    intro hEq
    subst hEq
    simp [dictGet] at h3
  have htr : pyTruthy (vDict m) = true := by
    simp [pyTruthy, List.isEmpty_iff]
    exact hm
  have hex : extract_tee_time_from_selected_tee_times (vDict m) = v := by
    simp [extract_tee_time_from_selected_tee_times, htr, h3]
  constructor
  · simp [get_tee_time_from_booking, h1, h2, hex, htr, h4]
  · cases hp : pyTruthy (vList l) <;>
      simp [extract_tee_time_from_selected_tee_times, hp]

/-- C4 witness: instantiation of the amended claim at a concrete dict and
list. -/
theorem resolver_dict_time_field_witness :
    get_tee_time_from_booking ⟨vStr "", vDict [("time", vStr "8:00 AM")], vNone⟩ =
      vStr "8:00 AM" ∧
    extract_tee_time_from_selected_tee_times
        (vList [vDict [("time", vStr "8:00 AM")]]) = vNone :=
  resolver_dict_time_field ⟨vStr "", vDict [("time", vStr "8:00 AM")], vNone⟩
    [("time", vStr "8:00 AM")] (vStr "8:00 AM") [vDict [("time", vStr "8:00 AM")]]
    rfl rfl rfl rfl

/-- C5: with `tee_time = ""`, a structured `selected_tee_times` of
`\x7b"time": "10:35 AM"\x7d` and a note containing `Tee Time: 3:45 PM`, the
resolver returns `10:35 AM` — the structured source wins over the note
source, which on its own would have yielded `3:45 PM`. -/
theorem resolver_structured_beats_note :
    get_tee_time_from_booking
        ⟨vStr "", vDict [("time", vStr "10:35 AM")],
          vStr "Please note Tee Time: 3:45 PM for your visit"⟩ = vStr "10:35 AM" ∧
    extract_tee_time_from_note
        (vStr "Please note Tee Time: 3:45 PM for your visit") = some "3:45 PM" :=
  ⟨rfl, rfl⟩

/-- C2 amended: the standalone logic module's due-booking selections do
exclude bookings whose idempotency timestamp is set (when the tracking
column exists, which it does whenever the timestamp is non-null); the
dashboard module's selection does not — there, already-sent bookings are
excluded only by the bulk-send prefilter. -/
theorem logic_selection_excludes_sent (db : Database) (today d : Int)
    (club : Option String) (b : BookingRow) (t : Nat) (bl : List BookingRow) :
    (db.hasPreTracking = true → b.pre_arrival_email_sent_at = some t →
      b ∉ logic_get_upcoming_bookings db today d club) ∧
    (db.hasPostTracking = true → b.post_play_email_sent_at = some t →
      b ∉ logic_get_recent_bookings db today d club) ∧
    (b.pre_arrival_email_sent_at = some t → b ∉ emails_bulk_unsent bl) := by
  refine ⟨?_, ?_, ?_⟩
  · intro htr hsent hmem
    simp only [logic_get_upcoming_bookings, htr, if_true] at hmem
    have hp := (List.mem_filter.mp hmem).2
    rw [hsent] at hp
    simp at hp
  · intro htr hsent hmem
    simp only [logic_get_recent_bookings, htr, if_true] at hmem
    have hp := (List.mem_filter.mp hmem).2
    rw [hsent] at hp
    simp at hp
  · intro hsent hmem
    have hp := (List.mem_filter.mp hmem).2
    rw [hsent] at hp
    simp at hp

/-- C2 counterexample: the dashboard module's due-booking selection
(`modules/customer_journey/emails.py` `get_upcoming_bookings`, default
mode) returns a booking whose `pre_arrival_email_sent_at` is already set:
the already-sent exclusion is not applied at selection time there. -/
theorem dashboard_selection_includes_sent :
    sentRow.pre_arrival_email_sent_at = some 5 ∧
    sentRow ∈ emails_get_upcoming_bookings ⟨true, true, [sentRow]⟩ 0 3 false := by
  refine ⟨rfl, ?_⟩
  have h : emails_get_upcoming_bookings ⟨true, true, [sentRow]⟩ 0 3 false = [sentRow] := rfl
  rw [h]
  exact List.mem_singleton.mpr rfl

/-- C2 witness: instantiation of the amended claim at `sentRow`. -/
theorem logic_selection_excludes_sent_witness :
    sentRow ∉ logic_get_upcoming_bookings ⟨true, true, [sentRow]⟩ 0 3 none ∧
    sentRow ∉ emails_bulk_unsent [sentRow] :=
  ⟨(logic_selection_excludes_sent ⟨true, true, [sentRow]⟩ 0 3 none sentRow 5 [sentRow]).1
      rfl rfl,
    (logic_selection_excludes_sent ⟨true, true, [sentRow]⟩ 0 3 none sentRow 5 [sentRow]).2.2
      rfl⟩

/-- C6: a `Confirmed` streamsong booking with `play_date = today + 4` is
not selected by the dashboard pre-arrival selection in default mode with
offset 3 (exact date equality), but is selected in show-all mode, which
accepts any `Confirmed` booking with `play_date >= today`. -/
theorem pre_arrival_exact_date_selection (db : Database) (today : Int) (b : BookingRow)
    (hmem : b ∈ db.rows) (hclub : b.club = "streamsong") (hstat : b.status = "Confirmed")
    (hdate : b.play_date = some (today + 4)) (htrack : db.hasPreTracking = true) :
    b ∉ emails_get_upcoming_bookings db today 3 false ∧
    b ∈ emails_get_upcoming_bookings db today 3 true := by
  have hid : ∀ l : List BookingRow, (l.map fun r =>
      if db.hasPreTracking then r else { r with pre_arrival_email_sent_at := none }) = l := by
    intro l
    rw [List.map_congr_left (fun a _ => by rw [if_pos htrack])]
    exact List.map_id l
  constructor
  · intro hmem2
    simp only [emails_get_upcoming_bookings] at hmem2
    rw [hid] at hmem2
    have hp := (List.mem_filter.mp hmem2).2
    simp [hclub, hstat, hdate] at hp
  · simp only [emails_get_upcoming_bookings]
    rw [hid]
    refine List.mem_filter.mpr ⟨hmem, ?_⟩
    simp [hclub, hstat, hdate]

/-- C6 witness: instantiation at `fourDayRow` with `today = 0`. -/
theorem pre_arrival_exact_date_selection_witness :
    fourDayRow ∉ emails_get_upcoming_bookings ⟨true, true, [fourDayRow]⟩ 0 3 false ∧
    fourDayRow ∈ emails_get_upcoming_bookings ⟨true, true, [fourDayRow]⟩ 0 3 true :=
  pre_arrival_exact_date_selection ⟨true, true, [fourDayRow]⟩ 0 fourDayRow
    (List.mem_singleton.mpr rfl) rfl rfl rfl rfl

theorem pdIsNa_none_cases (v : SVal) (h : pdIsNa v = none) :
    v = vList [] ∨ ∃ a b t, v = vList (a :: b :: t) := by
  cases v <;> simp [pdIsNa] at h ⊢
  next l =>
    match l with
    | [] => exact Or.inl rfl
    | [x] => simp [pdIsNa] at h
    | a :: b :: t => exact Or.inr ⟨a, b, t, rfl⟩

theorem extract_checked_ok_of_safe (note : SVal) (hn : noteMayRaise note = false) :
    extract_tee_time_from_note_checked note =
      Except.ok (extract_tee_time_from_note note) := by
  unfold extract_tee_time_from_note
  cases hc : extract_tee_time_from_note_checked note with
  | ok r => rfl
  | error e =>
    exfalso
    unfold extract_tee_time_from_note_checked at hc
    split at hc
    · exact Except.noConfusion hc
    · next htr =>
      split at hc
      · next hg =>
        rcases pdIsNa_none_cases note hg with hv | ⟨a, b, t, hv⟩
        · subst hv
          simp [pyTruthy] at htr
        · subst hv
          simp [noteMayRaise] at hn
      · exact Except.noConfusion hc
      · exact Except.noConfusion hc

theorem resolver_checked_agrees (b : RBooking) (hn : noteMayRaise b.note = false) :
    get_tee_time_from_booking_checked b =
      Except.ok (get_tee_time_from_booking b) := by
  have he := extract_checked_ok_of_safe b.note hn
  cases h1 : pyTruthy b.tee_time with
  | true =>
    simp [get_tee_time_from_booking_checked, get_tee_time_from_booking, h1]
  | false =>
    cases h2 : pyTruthy b.selected_tee_times
        && pyTruthy (extract_tee_time_from_selected_tee_times b.selected_tee_times) with
    | true =>
      simp [get_tee_time_from_booking_checked, get_tee_time_from_booking, h1, h2]
    | false =>
      cases h3 : pyTruthy b.note with
      | false =>
        simp [get_tee_time_from_booking_checked, get_tee_time_from_booking, h1, h2, h3]
      | true =>
        cases hx : extract_tee_time_from_note b.note with
        | some t =>
          by_cases hemp : t.isEmpty <;>
            simp [get_tee_time_from_booking_checked, get_tee_time_from_booking,
              h1, h2, h3, he, hx, hemp]
        | none =>
          simp [get_tee_time_from_booking_checked, get_tee_time_from_booking,
            h1, h2, h3, he, hx]

/-- C9 counterexample: a booking whose note is a two-element list — one of
the unexpectedly-typed (non-string) notes the claim covers — makes the
resolver raise `ValueError`: the guard evaluates `pd.isna` to a
two-element ndarray whose truth test is ambiguous, so the resolver does
not return the sentinel (or anything). -/
theorem resolver_raises_on_array_note :
    get_tee_time_from_booking_checked ⟨vNone, vNone, vList [vStr "a", vStr "b"]⟩ =
      Except.error
        "ValueError: The truth value of an array with more than one element is ambiguous" ∧
    extract_tee_time_from_note_checked (vList [vStr "a", vStr "b"]) =
      Except.error
        "ValueError: The truth value of an array with more than one element is ambiguous" :=
  ⟨rfl, rfl⟩

/-- C9 amended: the resolver is deterministic, and total for every
booking record whose note is not a multi-element list — including null,
empty and otherwise unexpectedly-typed fields it never raises — and when
additionally no strategy yields a truthy value it returns the sentinel
`TBD`; a truthy multi-element list note instead raises `ValueError` in
the note guard (see the counterexample). -/
theorem resolver_no_raise_without_array_note (b : RBooking)
    (hn : noteMayRaise b.note = false) :
    (∃ v, get_tee_time_from_booking_checked b = Except.ok v) ∧
    (pyTruthy b.tee_time = false →
      pyTruthy (extract_tee_time_from_selected_tee_times b.selected_tee_times) = false →
      extract_tee_time_from_note b.note = none →
      get_tee_time_from_booking_checked b = Except.ok (vStr "TBD") ∧
      get_tee_time_from_booking b = vStr "TBD") := by
  refine ⟨⟨get_tee_time_from_booking b, resolver_checked_agrees b hn⟩, ?_⟩
  intro h1 h2 h3
  have htot : get_tee_time_from_booking b = vStr "TBD" := by
    simp only [get_tee_time_from_booking, h1, h2, h3, Bool.and_false, Bool.false_eq_true,
      if_false]
    split <;> rfl
  exact ⟨by rw [resolver_checked_agrees b hn, htot], htot⟩

/-- C9 witness: a booking whose three fields all have unexpected types
(null column, integer `selected_tee_times`, integer note) neither raises
nor escapes the sentinel. -/
theorem resolver_no_raise_without_array_note_witness :
    get_tee_time_from_booking_checked ⟨vNone, vInt 7, vInt 3⟩ =
      Except.ok (vStr "TBD") ∧
    get_tee_time_from_booking ⟨vNone, vInt 7, vInt 3⟩ = vStr "TBD" :=
  (resolver_no_raise_without_array_note ⟨vNone, vInt 7, vInt 3⟩ rfl).2 rfl rfl rfl

/-- C10: `update_booking_status` reports success even when no row matches
the booking id — it returns `True`, leaves the table unchanged, and still
adds the status to the session auto-include set; `False` is returned only
on the exception path. -/
theorem update_status_success_without_match (db : List BookingRow)
    (session : List String) (now : Nat) (bid new_status updated_by : String)
    (hnone : ∀ r ∈ db, r.booking_id ≠ bid) :
    (update_booking_status false db session now bid new_status updated_by).1 = true ∧
    (update_booking_status false db session now bid new_status updated_by).2.1 = db ∧
    new_status ∈ (update_booking_status false db session now bid new_status updated_by).2.2 ∧
    (update_booking_status true db session now bid new_status updated_by).1 = false := by
  refine ⟨rfl, ?_, ?_, rfl⟩
  · show db.map _ = db
    rw [List.map_congr_left (fun r hr => ?_)]
    · exact List.map_id db
    · simp [beq_eq_false_iff_ne.mpr (hnone r hr)]
  · show new_status ∈ (if session.contains new_status then session
      else session ++ [new_status])
    split
    · next hc => simpa using hc
    · exact List.mem_append_right _ (List.mem_singleton.mpr rfl)

/-- C10 witness: instantiation at a one-row table whose booking id does
not match. -/
theorem update_status_success_without_match_witness :
    (update_booking_status false [sentRow] [] 0 "B1" "Requested" "admin").1 = true ∧
    (update_booking_status false [sentRow] [] 0 "B1" "Requested" "admin").2.1 = [sentRow] ∧
    "Requested" ∈ (update_booking_status false [sentRow] [] 0 "B1" "Requested" "admin").2.2 ∧
    (update_booking_status true [sentRow] [] 0 "B1" "Requested" "admin").1 = false :=
  update_status_success_without_match [sentRow] [] 0 "B1" "Requested" "admin"
    (by intro r hr; rw [List.mem_singleton.mp hr]; decide)

/-- C7: the pre-arrival batch produces one per-item result for every due
booking (no item's failure aborts the loop), and on the concrete 3-item
batch whose second item lacks `guest_email` it returns
`sent_count = 2`, `failed_count = 1`, the per-item result for item 2
names the missing field, and items 1 and 3 are marked notified while
item 2 is not. -/
theorem pre_arrival_batch_isolation :
    (∀ env db now today club,
        ((process_pre_arrival_emails env db now today club false).2.2.1).length =
          (logic_get_upcoming_bookings db today 3 club).length) ∧
    (process_pre_arrival_emails c7env ⟨true, true, [c7row1, c7row2, c7row3]⟩
        100 0 none false).1 = 2 ∧
    (process_pre_arrival_emails c7env ⟨true, true, [c7row1, c7row2, c7row3]⟩
        100 0 none false).2.1 = 1 ∧
    ((process_pre_arrival_emails c7env ⟨true, true, [c7row1, c7row2, c7row3]⟩
        100 0 none false).2.2.1).map (fun r => r.status) = ["sent", "failed", "sent"] ∧
    ((process_pre_arrival_emails c7env ⟨true, true, [c7row1, c7row2, c7row3]⟩
        100 0 none false).2.2.1).map (fun r => r.message) =
      [some "Pre-arrival email sent to a@x.com", some "Missing guest_email",
        some "Pre-arrival email sent to c@x.com"] ∧
    ((process_pre_arrival_emails c7env ⟨true, true, [c7row1, c7row2, c7row3]⟩
        100 0 none false).2.2.2).rows.map (fun r => r.pre_arrival_email_sent_at) =
      [some 100, none, some 100] :=
  ⟨fun env db now today club => process_email_loop_length env now false _ db,
    rfl, rfl, rfl, rfl, rfl⟩

/-- C8: the backfill never modifies a row whose `tee_time` is already a
concrete (non-null, non-empty, non-sentinel) value, and running it again
immediately on its own output updates nothing (`updated_count = 0`). -/
theorem backfill_untouched_and_idempotent (now now2 : Nat) (club : String)
    (db : List BookingRow) :
    (∀ i (h : i < db.length),
        teeTimeMissing ((db.get ⟨i, h⟩).tee_time) = false →
        (fix_all_tee_times now club db).1.get
          ⟨i, by rw [fix_all_tee_times_length]; exact h⟩ = db.get ⟨i, h⟩) ∧
    (fix_all_tee_times now2 club (fix_all_tee_times now club db).1).2.1 = 0 := by
  constructor
  · intro i h hm
    simp only [List.get_eq_getElem] at hm ⊢
    simp only [fix_map now club db, List.getElem_map]
    rw [if_neg (by simp [hm])]
  · exact fix_second_run_zero now now2 club db

/-- C8 witness: a single row with a concrete tee time is untouched and
the immediate second run updates nothing. -/
theorem backfill_untouched_and_idempotent_witness :
    (fix_all_tee_times 5 "streamsong" [c8row]).1.get
        ⟨0, by rw [fix_all_tee_times_length]; decide⟩ = [c8row].get ⟨0, by decide⟩ ∧
    (fix_all_tee_times 6 "streamsong" (fix_all_tee_times 5 "streamsong" [c8row]).1).2.1
      = 0 :=
  ⟨(backfill_untouched_and_idempotent 5 6 "streamsong" [c8row]).1 0 (by decide)
      (by decide),
    (backfill_untouched_and_idempotent 5 6 "streamsong" [c8row]).2⟩
